import Mathlib

/-!
Verification of a minimal message-board backend (FastAPI + SQLAlchemy + JWT).

The embedding mirrors the repository layout:
* `db/models.py`  → the `User` and `Message` structures, the `Store` (the database);
* `db/crud.py`    → the `crud` namespace;
* `main.py`       → the `main` namespace (token validation and HTTP endpoints).

External collaborators are abstracted exactly at the repository's boundary:
* the password hasher (`passlib`'s `pwd_context`) is a function parameter
  (`hash : String → String`, `verify : String → String → Bool`);
* the token codec (`python-jose`'s `jwt.encode`/`jwt.decode`) is modelled by the
  `Token` structure (a claim set plus a signature-validity flag standing for
  "the HMAC verifies against SECRET_KEY") and the `jwt_decode` function, which
  reproduces jose's behaviour: invalid signature → `JWTError`; valid signature
  with an `exp` claim strictly in the past → `ExpiredSignatureError`; otherwise
  the claim set is returned. Timestamps are integers (Unix seconds).

SQLAlchemy sessions are modelled by explicit `Store` passing: each operation
returns its result together with the store after its commits.
-/

/-- `db/models.py`: the `users` table. `logged_in` has column default `False`. -/
structure User where
  id : Nat
  username : String
  hashed_password : String
  logged_in : Bool
deriving DecidableEq, Repr

/-- `db/models.py`: the `messages` table. `vote_count` has column default `0`
and is a signed integer (votes may drive it negative). -/
structure Message where
  id : Nat
  author_id : Nat
  message : String
  vote_count : Int
deriving DecidableEq, Repr

/-- The persistent database state: both tables, plus the autoincrement
counters the primary-key columns of `models.py` draw fresh ids from. -/
structure Store where
  users : List User
  messages : List Message
  next_user_id : Nat
  next_message_id : Nat
deriving DecidableEq, Repr

/-- `schemas/message.py`: `class Vote(Enum): UP = "up"; DOWN = "down"`. -/
inductive Vote where
  | up
  | down
deriving DecidableEq, Repr

namespace crud

/-- `db/crud.py` `create_user`: inserts a new `User` row.  `logged_in` is not
passed, so the column default `False` applies; the primary key is assigned by
autoincrement. Returns the refreshed row together with the new store. -/
def create_user (db : Store) (username hashed_password : String) : Store × User :=
  let db_user : User :=
    { id := db.next_user_id
      username := username
      hashed_password := hashed_password
      logged_in := false }
  ({ db with
      users := db.users ++ [db_user]
      next_user_id := db.next_user_id + 1 },
   db_user)

/-- `db/crud.py` `get_user_by_name`:
`db.query(User).filter(User.username == username).first()` — first row whose
username is an exact string match, or `None`. -/
def get_user_by_name (db : Store) (username : String) : Option User :=
  db.users.find? (fun u => u.username = username)

/-- `db/crud.py` `login_user`: sets `logged_in = True` on the row identified by
`db_user`'s primary key and commits. -/
def login_user (db : Store) (db_user : User) : Store :=
  { db with
      users := db.users.map (fun u =>
        if u.id = db_user.id then { u with logged_in := true } else u) }

/-- `db/crud.py` `logout_user`: sets `logged_in = False` on the row identified
by `db_user`'s primary key and commits. -/
def logout_user (db : Store) (db_user : User) : Store :=
  { db with
      users := db.users.map (fun u =>
        if u.id = db_user.id then { u with logged_in := false } else u) }

/-- `db/crud.py` `get_all_messages`: `db.query(Message).all()`. -/
def get_all_messages (db : Store) : List Message :=
  db.messages

/-- `db/crud.py` `post_message`: inserts a `Message` row with
`author_id = db_user.id` and the given text; `vote_count` takes the column
default `0`, the primary key comes from autoincrement. -/
def post_message (db : Store) (new_message : String) (db_user : User) : Store :=
  let msg : Message :=
    { id := db.next_message_id
      author_id := db_user.id
      message := new_message
      vote_count := 0 }
  { db with
      messages := db.messages ++ [msg]
      next_message_id := db.next_message_id + 1 }

/-- `db/crud.py` `get_message`:
`db.query(Message).filter(Message.id == message_id).first()`. -/
def get_message (db : Store) (message_id : Nat) : Option Message :=
  db.messages.find? (fun m => m.id = message_id)

/-- `db/crud.py` `vote_for_message`: `if vote is Vote.UP: vote_count += 1`
`elif vote is Vote.DOWN: vote_count -= 1`, then commit. The mutation is on the
row identified by `db_message`'s primary key. -/
def vote_for_message (db : Store) (db_message : Message) (vote : Vote) : Store :=
  match vote with
  | Vote.up =>
      { db with
          messages := db.messages.map (fun m =>
            if m.id = db_message.id then { m with vote_count := m.vote_count + 1 } else m) }
  | Vote.down =>
      { db with
          messages := db.messages.map (fun m =>
            if m.id = db_message.id then { m with vote_count := m.vote_count - 1 } else m) }

/-- `db/crud.py` `delete_message`:
`db.query(Message).filter(Message.id == message_id).delete()` — removes every
row with that primary key (a no-op when none exists). -/
def delete_message (db : Store) (message_id : Nat) : Store :=
  { db with messages := db.messages.filter (fun m => m.id ≠ message_id) }

/-- `db/crud.py` `get_user_messages`:
`db.query(Message).filter(Message.author_id == db_user.id).all()` — always a
list (possibly empty), never `None`. -/
def get_user_messages (db : Store) (db_user : User) : List Message :=
  db.messages.filter (fun m => m.author_id = db_user.id)

end crud

/-- A JWT as the server sees it: the decoded claim set (`sub`, `exp`) plus a
flag recording whether the HMAC-SHA256 signature verifies against
`SECRET_KEY`. The crypto itself is outside the model; everything `main.py`
observes about a token is captured here. -/
structure Token where
  sigValid : Bool
  sub : Option String
  exp : Option Int
deriving DecidableEq, Repr

/-- Outcome of `jose.jwt.decode(token, SECRET_KEY, algorithms=[ALGORITHM])`. -/
inductive DecodeResult where
  | ok (sub : Option String)
  | expiredSig
  | jwtError
deriving DecidableEq, Repr

/-- `jose.jwt.decode` with default options at time `now`: a bad signature
raises `JWTError`; a good signature with an `exp` claim strictly less than
`now` (jose compares `exp < now - leeway`, leeway 0) raises
`ExpiredSignatureError`; otherwise the claims are returned. -/
def jwt_decode (t : Token) (now : Int) : DecodeResult :=
  if t.sigValid = false then DecodeResult.jwtError
  else
    match t.exp with
    | some e => if e < now then DecodeResult.expiredSig else DecodeResult.ok t.sub
    | none => DecodeResult.ok t.sub

/-- How `main.py` `validate_token` can fail.
`keyError` is the uncaught Python `KeyError` raised at line 121 when an
expired token's claim set has no `"sub"` key: it is neither an
`ExpiredSignatureError` nor a `JWTError`, so no `except` clause catches it and
FastAPI surfaces it as a 500 response. -/
inductive AuthError where
  | unauthenticated
  | notLoggedIn
  | expired
  | keyError
deriving DecidableEq, Repr

/-- The HTTP status each failure is surfaced with: the
`credentials_exception` is 401, "User is not logged in." and "JWT Expired."
are 400, and an uncaught `KeyError` becomes FastAPI's 500. -/
def AuthError.status : AuthError → Nat
  | AuthError.unauthenticated => 401
  | AuthError.notLoggedIn => 400
  | AuthError.expired => 400
  | AuthError.keyError => 500

namespace main

/-- `main.py` `ACCESS_TOKEN_EXPIRE_MINUTES = 30`. -/
def ACCESS_TOKEN_EXPIRE_MINUTES : Int := 30

/-- `main.py` `create_access_token`: copies the data (`sub`), sets
`exp = now + expires_delta` when `expires_delta` is truthy (Python's
`if expires_delta:` is false both for `None` and for a zero timedelta), else
`now + 15 minutes`, and signs with `SECRET_KEY`. Deltas are in seconds. -/
def create_access_token (sub : String) (now : Int) (expires_delta : Option Int) : Token :=
  let expire : Int :=
    match expires_delta with
    | some d => if d ≠ 0 then now + d else now + 15 * 60
    | none => now + 15 * 60
  { sigValid := true, sub := some sub, exp := some expire }

/-- `main.py` `validate_password`: delegates to `pwd_context.verify`. -/
def validate_password (verify : String → String → Bool)
    (password : String) (hashed_password : String) : Bool :=
  verify password hashed_password

/-- `main.py` `validate_token` at time `now`. Returns the authenticated user
or the failure, together with the store after any side effect.

* decode ok, `sub` missing → `credentials_exception` (401);
* decode ok, user not found → 401; found but `logged_in is False` → 400;
* `ExpiredSignatureError` → re-decode with `verify_exp: False` and read
  `["sub"]` (an uncaught `KeyError` when absent), look the user up:
  not found → 401, found → `logout_user` then "JWT Expired." (400);
* any other `JWTError` (bad signature) → 401. -/
def validate_token (t : Token) (now : Int) (db : Store) :
    Except AuthError User × Store :=
  match jwt_decode t now with
  | DecodeResult.jwtError => (Except.error AuthError.unauthenticated, db)
  | DecodeResult.ok subClaim =>
      match subClaim with
      | none => (Except.error AuthError.unauthenticated, db)
      | some username =>
          match crud.get_user_by_name db username with
          | none => (Except.error AuthError.unauthenticated, db)
          | some db_user =>
              if db_user.logged_in = false then
                (Except.error AuthError.notLoggedIn, db)
              else
                (Except.ok db_user, db)
  | DecodeResult.expiredSig =>
      match t.sub with
      | none => (Except.error AuthError.keyError, db)
      | some username =>
          match crud.get_user_by_name db username with
          | none => (Except.error AuthError.unauthenticated, db)
          | some db_user =>
              (Except.error AuthError.expired, crud.logout_user db db_user)

/-- Outcome of `POST /register`. -/
inductive RegisterResult where
  | conflict
  | created
deriving DecidableEq, Repr

/-- HTTP status of a `POST /register` outcome: "Username already registered"
is raised with 400, success returns 201. -/
def RegisterResult.status : RegisterResult → Nat
  | RegisterResult.conflict => 400
  | RegisterResult.created => 201

/-- `main.py` `create_user` (the `POST /register` endpoint): looks the
username up; an existing row (Python truthiness: any row object) → 400
"Username already registered"; otherwise hashes the password with
`pwd_context.hash` and inserts via `crud.create_user`. -/
def create_user (hash : String → String) (username password : String)
    (db : Store) : RegisterResult × Store :=
  match crud.get_user_by_name db username with
  | some _ => (RegisterResult.conflict, db)
  | none => (RegisterResult.created, (crud.create_user db username (hash password)).1)

/-- Outcome of `POST /login`. `token` carries the minted JWT of the
`{"access_token": ..., "token_type": "bearer"}` response; `alreadyLoggedIn`
is the bare string response `"User already logged in."` (no token). -/
inductive LoginResult where
  | invalidCredentials
  | alreadyLoggedIn
  | token (t : Token)
deriving DecidableEq, Repr

/-- `main.py` `login_user` (the `POST /login` endpoint): unknown username or
password mismatch → 400 "Incorrect username or password"; `db_user.logged_in`
→ return "User already logged in." (no token minted, no store write);
otherwise mint a token expiring in `ACCESS_TOKEN_EXPIRE_MINUTES` and set the
flag via `crud.login_user`. -/
def login_user (verify : String → String → Bool) (username password : String)
    (now : Int) (db : Store) : LoginResult × Store :=
  match crud.get_user_by_name db username with
  | none => (LoginResult.invalidCredentials, db)
  | some db_user =>
      if validate_password verify password db_user.hashed_password = false then
        (LoginResult.invalidCredentials, db)
      else if db_user.logged_in then
        (LoginResult.alreadyLoggedIn, db)
      else
        (LoginResult.token
            (create_access_token username now (some (ACCESS_TOKEN_EXPIRE_MINUTES * 60))),
         crud.login_user db db_user)

/-- Outcome of `DELETE /messages/{message_id}`. -/
inductive DeleteResult where
  | authFailed (e : AuthError)
  | notFound
  | deleted
deriving DecidableEq, Repr

/-- HTTP status of a `DELETE /messages/{message_id}` outcome: "Cannot find
message ID." is raised with 400, success returns 200. -/
def DeleteResult.status : DeleteResult → Nat
  | DeleteResult.authFailed e => e.status
  | DeleteResult.notFound => 400
  | DeleteResult.deleted => 200

/-- `main.py` `delete_message` (the `DELETE /messages/{message_id}`
endpoint): validates the token (failures propagate with their store side
effects), fetches the message, `None` → 400 "Cannot find message ID.",
otherwise deletes via `crud.delete_message`. -/
def delete_message (t : Token) (now : Int) (message_id : Nat) (db : Store) :
    DeleteResult × Store :=
  match validate_token t now db with
  | (Except.error e, db1) => (DeleteResult.authFailed e, db1)
  | (Except.ok _, db1) =>
      match crud.get_message db1 message_id with
      | none => (DeleteResult.notFound, db1)
      | some _ => (DeleteResult.deleted, crud.delete_message db1 message_id)

/-- Outcome of `GET /user/messages`. `noMessages` is the
`HTTPException(status_code=200, detail="User has no messages.")` branch. -/
inductive UserMessagesResult where
  | authFailed (e : AuthError)
  | noMessages
  | ok (msgs : List Message)
deriving DecidableEq, Repr

/-- `main.py`'s `GET /user/messages` endpoint (in the source it is a second
function also named `delete_message`, shadowing the one above at module level;
both routes are registered). It validates the token, collects the caller's
messages, and checks `if user_messages is None`. SQLAlchemy's `.all()` always
returns a list, never `None`: the model makes that explicit by wrapping the
crud result in `some` before the `is None` check, so the `noMessages` branch
is the dead branch of the Python code. -/
def user_messages (t : Token) (now : Int) (db : Store) :
    UserMessagesResult × Store :=
  match validate_token t now db with
  | (Except.error e, db1) => (UserMessagesResult.authFailed e, db1)
  | (Except.ok db_user, db1) =>
      let msgs : Option (List Message) := some (crud.get_user_messages db1 db_user)
      match msgs with
      | none => (UserMessagesResult.noMessages, db1)
      | some ms => (UserMessagesResult.ok ms, db1)

end main

/-! ### Helper lemmas -/

/-- Updating, via `map`, exactly the rows that share the found row's key
moves `find?` to the updated row, provided the update preserves the search
predicate. This is the shape of every SQLAlchemy row mutation in `crud.py`. -/
theorem find?_map_if {α : Type} (p : α → Bool) (idf : α → Nat) (g : α → α)
    (hp : ∀ x, p (g x) = p x) (l : List α) (a : α)
    (h : l.find? p = some a) :
    (l.map (fun x => if idf x = idf a then g x else x)).find? p = some (g a) := by
  induction l with
  | nil => simp at h
  | cons x xs ih =>
    simp only [List.map_cons]
    by_cases hx : p x = true
    · rw [List.find?_cons_of_pos _ hx] at h
      injection h with h
      subst h
      rw [if_pos rfl]
      exact List.find?_cons_of_pos _ (by rw [hp]; exact hx)
    · rw [List.find?_cons_of_neg _ hx] at h
      have hy : ¬ p (if idf x = idf a then g x else x) = true := by
        by_cases hid : idf x = idf a
        · rw [if_pos hid, hp]; exact hx
        · rw [if_neg hid]; exact hx
      rw [List.find?_cons_of_neg _ hy]
      exact ih h

/-- After `crud.logout_user db u` on a user found by name, looking the name up
again yields the same row with `logged_in` forced to `false`. -/
theorem get_user_by_name_logout (db : Store) (username : String) (u : User)
    (h : crud.get_user_by_name db username = some u) :
    crud.get_user_by_name (crud.logout_user db u) username
      = some { u with logged_in := false } := by
  unfold crud.get_user_by_name crud.logout_user
  exact find?_map_if _ (fun x => x.id) (fun x => { x with logged_in := false })
    (fun x => rfl) db.users u h

/-- Voting up a message found by id, then refetching by the same id, yields
the same row with `vote_count` one higher. -/
theorem get_message_vote_up (db : Store) (mid : Nat) (m : Message)
    (h : crud.get_message db mid = some m) :
    crud.get_message (crud.vote_for_message db m Vote.up) mid
      = some { m with vote_count := m.vote_count + 1 } := by
  unfold crud.get_message
  simp only [crud.vote_for_message]
  exact find?_map_if _ (fun x => x.id)
    (fun x => { x with vote_count := x.vote_count + 1 }) (fun x => rfl)
    db.messages m h

/-- Voting down a message found by id, then refetching by the same id, yields
the same row with `vote_count` one lower. -/
theorem get_message_vote_down (db : Store) (mid : Nat) (m : Message)
    (h : crud.get_message db mid = some m) :
    crud.get_message (crud.vote_for_message db m Vote.down) mid
      = some { m with vote_count := m.vote_count - 1 } := by
  unfold crud.get_message
  simp only [crud.vote_for_message]
  exact find?_map_if _ (fun x => x.id)
    (fun x => { x with vote_count := x.vote_count - 1 }) (fun x => rfl)
    db.messages m h

/-- An up-vote followed by a down-vote on the same message id restores the
store exactly. -/
theorem vote_up_down (db : Store) (m : Message) :
    crud.vote_for_message (crud.vote_for_message db m Vote.up)
      { m with vote_count := m.vote_count + 1 } Vote.down = db := by
  simp only [crud.vote_for_message]
  have hmap :
      (db.messages.map (fun x =>
          if x.id = m.id then { x with vote_count := x.vote_count + 1 } else x)).map
        (fun x =>
          if x.id = ({ m with vote_count := m.vote_count + 1 } : Message).id
          then { x with vote_count := x.vote_count - 1 } else x)
      = db.messages := by
    rw [List.map_map]
    have hid : ∀ x : Message,
        ((fun x =>
            if x.id = ({ m with vote_count := m.vote_count + 1 } : Message).id
            then { x with vote_count := x.vote_count - 1 } else x) ∘
         (fun x =>
            if x.id = m.id then { x with vote_count := x.vote_count + 1 } else x)) x
        = x := by
      intro x
      rcases x with ⟨xi, xa, xm, xv⟩
      simp only [Function.comp_apply]
      by_cases hx : xi = m.id
      · simp [hx]
      · simp [hx]
    rw [List.map_congr_left (fun x _ => hid x), List.map_id' db.messages]
  rw [hmap]

/-- `find?` on a list extended with a fresh-id row finds exactly that row. -/
theorem find?_append_fresh (l : List Message) (msg : Message) (mid : Nat)
    (hfresh : ∀ m ∈ l, m.id ≠ mid) (hmsg : msg.id = mid) :
    (l ++ [msg]).find? (fun m => m.id = mid) = some msg := by
  induction l with
  | nil =>
    simp only [List.nil_append]
    exact List.find?_cons_of_pos _ (by simp [hmsg])
  | cons x xs ih =>
    rw [List.cons_append,
        List.find?_cons_of_neg _ (by simp [hfresh x (by simp)])]
    exact ih (fun m hm => hfresh m (by simp [hm]))

/-- Deleting by id then fetching the same id yields `None`. -/
theorem get_message_delete (db : Store) (mid : Nat) :
    crud.get_message (crud.delete_message db mid) mid = none := by
  unfold crud.get_message crud.delete_message
  rw [List.find?_eq_none]
  intro m hm
  simp only [List.mem_filter] at hm
  simp [of_decide_eq_true hm.2]

/-- `jwt_decode` only ever returns the token's own `sub` claim. -/
theorem jwt_decode_ok_sub (t : Token) (now : Int) (s : Option String)
    (h : jwt_decode t now = DecodeResult.ok s) : s = t.sub := by
  unfold jwt_decode at h
  split at h
  · exact DecodeResult.noConfusion h
  · split at h
    · split at h
      · exact DecodeResult.noConfusion h
      · injection h with h
        exact h.symm
    · injection h with h
      exact h.symm

/-- A successful `validate_token` performs no store write. -/
theorem validate_token_ok_store (t : Token) (now : Int) (db db2 : Store) (u : User)
    (h : main.validate_token t now db = (Except.ok u, db2)) : db2 = db := by
  unfold main.validate_token at h
  repeat' split at h
  all_goals injection h with h1 h2
  all_goals first
    | exact Except.noConfusion h1
    | exact h2.symm

/-! ### Claims -/

/-- C1: for every token with a valid signature whose expiry has passed and
whose subject names an existing user, `validate_token` fails with `Expired`
(HTTP 400) and, as a side effect, sets that user's `logged_in` flag to
`false`; if the subject names no existing user, it fails with
`Unauthenticated` (HTTP 401) and writes nothing. -/
theorem validate_token_expired_auto_logout (t : Token) (now e : Int) (db : Store)
    (username : String)
    (hsig : t.sigValid = true) (hexp : t.exp = some e) (hpast : e < now)
    (hsub : t.sub = some username) :
    (∀ u : User, crud.get_user_by_name db username = some u →
        main.validate_token t now db
          = (Except.error AuthError.expired, crud.logout_user db u)
      ∧ crud.get_user_by_name (crud.logout_user db u) username
          = some { u with logged_in := false }
      ∧ AuthError.expired.status = 400)
  ∧ (crud.get_user_by_name db username = none →
        main.validate_token t now db = (Except.error AuthError.unauthenticated, db)
      ∧ AuthError.unauthenticated.status = 401) := by
  have hdec : jwt_decode t now = DecodeResult.expiredSig := by
    simp [jwt_decode, hsig, hexp, hpast]
  constructor
  · intro u hu
    refine ⟨?_, get_user_by_name_logout db username u hu, rfl⟩
    simp [main.validate_token, hdec, hsub, hu]
  · intro hu
    refine ⟨?_, rfl⟩
    simp [main.validate_token, hdec, hsub, hu]

/-- C1 witness: concrete expired token for a logged-in user "alice". -/
theorem validate_token_expired_auto_logout_witness :
    main.validate_token
        { sigValid := true, sub := some "alice", exp := some 10 } 20
        { users := [{ id := 1, username := "alice", hashed_password := "pw", logged_in := true }],
          messages := [], next_user_id := 2, next_message_id := 1 }
      = (Except.error AuthError.expired,
         crud.logout_user
           { users := [{ id := 1, username := "alice", hashed_password := "pw", logged_in := true }],
             messages := [], next_user_id := 2, next_message_id := 1 }
           { id := 1, username := "alice", hashed_password := "pw", logged_in := true }) :=
  ((validate_token_expired_auto_logout
      { sigValid := true, sub := some "alice", exp := some 10 } 20 10
      { users := [{ id := 1, username := "alice", hashed_password := "pw", logged_in := true }],
        messages := [], next_user_id := 2, next_message_id := 1 }
      "alice" rfl rfl (by decide) rfl).1
    { id := 1, username := "alice", hashed_password := "pw", logged_in := true }
    (by decide)).1

/-- C2 counterexample: an expired, validly signed token with no `sub` claim
does NOT fail with `Unauthenticated` (401): the `["sub"]` lookup at
`main.py:121` raises an uncaught `KeyError` (surfaced as 500). -/
theorem validate_token_missing_sub_counterexample :
    (main.validate_token { sigValid := true, sub := none, exp := some 0 } 1
        { users := [], messages := [], next_user_id := 1, next_message_id := 1 }).1
      = Except.error AuthError.keyError
  ∧ AuthError.keyError ≠ AuthError.unauthenticated
  ∧ AuthError.keyError.status ≠ 401 := by
  refine ⟨rfl, by decide, by decide⟩

/-- C2 amended: a presented token whose claim set lacks `sub` makes
`validate_token` fail with `Unauthenticated` (401) whenever decoding does not
raise `ExpiredSignatureError` (i.e. the signature is invalid, or it is valid
and the token is unexpired); when the token is expired (valid signature,
`exp` in the past) the missing `sub` instead raises an uncaught `KeyError`
(500). In neither case is the store written. -/
theorem validate_token_missing_sub_amended (t : Token) (now : Int) (db : Store)
    (hsub : t.sub = none) :
    (jwt_decode t now ≠ DecodeResult.expiredSig →
        main.validate_token t now db = (Except.error AuthError.unauthenticated, db)
      ∧ AuthError.unauthenticated.status = 401)
  ∧ (jwt_decode t now = DecodeResult.expiredSig →
        main.validate_token t now db = (Except.error AuthError.keyError, db)
      ∧ AuthError.keyError.status = 500) := by
  constructor
  · intro hne
    refine ⟨?_, rfl⟩
    cases hd : jwt_decode t now with
    | jwtError => simp [main.validate_token, hd]
    | expiredSig => exact absurd hd hne
    | ok s =>
      have hs : s = none := (jwt_decode_ok_sub t now s hd).trans hsub
      rw [hs] at hd
      simp [main.validate_token, hd]
  · intro hd
    refine ⟨?_, rfl⟩
    simp [main.validate_token, hd, hsub]

/-- C2 amended witness: concrete expired and unexpired `sub`-less tokens. -/
theorem validate_token_missing_sub_amended_witness :
    (main.validate_token { sigValid := true, sub := none, exp := some 0 } 1
        { users := [], messages := [], next_user_id := 1, next_message_id := 1 }
      = (Except.error AuthError.keyError,
         { users := [], messages := [], next_user_id := 1, next_message_id := 1 })
    ∧ AuthError.keyError.status = 500)
  ∧ (main.validate_token { sigValid := false, sub := none, exp := none } 1
        { users := [], messages := [], next_user_id := 1, next_message_id := 1 }
      = (Except.error AuthError.unauthenticated,
         { users := [], messages := [], next_user_id := 1, next_message_id := 1 })
    ∧ AuthError.unauthenticated.status = 401) :=
  ⟨(validate_token_missing_sub_amended
      { sigValid := true, sub := none, exp := some 0 } 1
      { users := [], messages := [], next_user_id := 1, next_message_id := 1 }
      rfl).2 (by decide),
   (validate_token_missing_sub_amended
      { sigValid := false, sub := none, exp := none } 1
      { users := [], messages := [], next_user_id := 1, next_message_id := 1 }
      rfl).1 (by decide)⟩

/-- C3: a token with a valid signature, unexpired `exp`, and a subject naming
an existing user whose `logged_in` flag is `false` makes `validate_token`
fail with `NotLoggedIn` (400), not `Unauthenticated` (401). -/
theorem validate_token_not_logged_in (t : Token) (now e : Int) (db : Store)
    (username : String) (u : User)
    (hsig : t.sigValid = true) (hexp : t.exp = some e) (hnotpast : ¬ e < now)
    (hsub : t.sub = some username)
    (hu : crud.get_user_by_name db username = some u)
    (hflag : u.logged_in = false) :
    main.validate_token t now db = (Except.error AuthError.notLoggedIn, db)
  ∧ AuthError.notLoggedIn.status = 400
  ∧ AuthError.notLoggedIn ≠ AuthError.unauthenticated := by
  have hdec : jwt_decode t now = DecodeResult.ok (some username) := by
    simp [jwt_decode, hsig, hexp, hnotpast, hsub]
  refine ⟨?_, rfl, by decide⟩
  simp [main.validate_token, hdec, hu, hflag]

/-- C3 witness: valid unexpired token for a logged-out user "alice". -/
theorem validate_token_not_logged_in_witness :
    main.validate_token
        { sigValid := true, sub := some "alice", exp := some 30 } 20
        { users := [{ id := 1, username := "alice", hashed_password := "pw", logged_in := false }],
          messages := [], next_user_id := 2, next_message_id := 1 }
      = (Except.error AuthError.notLoggedIn,
         { users := [{ id := 1, username := "alice", hashed_password := "pw", logged_in := false }],
           messages := [], next_user_id := 2, next_message_id := 1 }) :=
  (validate_token_not_logged_in
      { sigValid := true, sub := some "alice", exp := some 30 } 20 30
      { users := [{ id := 1, username := "alice", hashed_password := "pw", logged_in := false }],
        messages := [], next_user_id := 2, next_message_id := 1 }
      "alice" { id := 1, username := "alice", hashed_password := "pw", logged_in := false }
      rfl rfl (by decide) rfl rfl rfl).1

/-- C4: login with correct credentials while already logged in returns the
"already logged in" indicator, mints no token, and leaves the store (hence
the user's `logged_in` flag) unchanged. -/
theorem login_already_logged_in_no_refresh (verify : String → String → Bool)
    (username password : String) (now : Int) (db : Store) (u : User)
    (hu : crud.get_user_by_name db username = some u)
    (hpwd : verify password u.hashed_password = true)
    (hflag : u.logged_in = true) :
    main.login_user verify username password now db
      = (main.LoginResult.alreadyLoggedIn, db)
  ∧ ∀ tk : Token,
      (main.login_user verify username password now db).1 ≠ main.LoginResult.token tk := by
  have h1 : main.login_user verify username password now db
      = (main.LoginResult.alreadyLoggedIn, db) := by
    simp [main.login_user, main.validate_password, hu, hpwd, hflag]
  refine ⟨h1, fun tk hcontra => ?_⟩
  rw [h1] at hcontra
  exact main.LoginResult.noConfusion hcontra

/-- C4 witness: "alice" with matching password, already logged in. -/
theorem login_already_logged_in_no_refresh_witness :
    main.login_user (fun p h => p == h) "alice" "pw" 0
        { users := [{ id := 1, username := "alice", hashed_password := "pw", logged_in := true }],
          messages := [], next_user_id := 2, next_message_id := 1 }
      = (main.LoginResult.alreadyLoggedIn,
         { users := [{ id := 1, username := "alice", hashed_password := "pw", logged_in := true }],
           messages := [], next_user_id := 2, next_message_id := 1 }) :=
  (login_already_logged_in_no_refresh (fun p h => p == h) "alice" "pw" 0
      { users := [{ id := 1, username := "alice", hashed_password := "pw", logged_in := true }],
        messages := [], next_user_id := 2, next_message_id := 1 }
      { id := 1, username := "alice", hashed_password := "pw", logged_in := true }
      rfl (by decide) rfl).1

/-- C5: registering an already-taken username (exact string match) fails with
`Conflict` (400) and persists nothing; registering a fresh username stores a
new `User` with `logged_in = false` and the hashed password. -/
theorem register_conflict_or_create (hash : String → String)
    (username password : String) (db : Store) :
    (∀ u : User, crud.get_user_by_name db username = some u →
        main.create_user hash username password db = (main.RegisterResult.conflict, db)
      ∧ u.username = username
      ∧ main.RegisterResult.conflict.status = 400)
  ∧ (crud.get_user_by_name db username = none →
        main.create_user hash username password db
          = (main.RegisterResult.created,
             { db with
                 users := db.users ++
                   [{ id := db.next_user_id, username := username,
                      hashed_password := hash password, logged_in := false }],
                 next_user_id := db.next_user_id + 1 })
      ∧ main.RegisterResult.created.status = 201) := by
  constructor
  · intro u hu
    refine ⟨by simp [main.create_user, hu], ?_, rfl⟩
    have hu2 : List.find? (fun x : User => decide (x.username = username)) db.users
        = some u := hu
    have h3 : (fun x : User => decide (x.username = username)) u = true :=
      @List.find?_some User (fun x : User => decide (x.username = username)) u db.users hu2
    exact of_decide_eq_true h3
  · intro hu
    refine ⟨?_, rfl⟩
    simp [main.create_user, crud.create_user, hu]

/-- C5 witness: registering "bob" twice — second attempt conflicts. -/
theorem register_conflict_or_create_witness :
    main.create_user (fun s => s) "bob" "pw"
        { users := [{ id := 1, username := "bob", hashed_password := "pw", logged_in := false }],
          messages := [], next_user_id := 2, next_message_id := 1 }
      = (main.RegisterResult.conflict,
         { users := [{ id := 1, username := "bob", hashed_password := "pw", logged_in := false }],
           messages := [], next_user_id := 2, next_message_id := 1 }) :=
  ((register_conflict_or_create (fun s => s) "bob" "pw"
      { users := [{ id := 1, username := "bob", hashed_password := "pw", logged_in := false }],
        messages := [], next_user_id := 2, next_message_id := 1 }).1
    { id := 1, username := "bob", hashed_password := "pw", logged_in := false }
    rfl).1

/-- C6: voting up an existing message increments its `vote_count` by exactly
1, voting down decrements it by exactly 1, up-then-down restores the store
exactly, and a freshly posted message starts with `vote_count = 0`. -/
theorem vote_count_roundtrip (db : Store) (mid : Nat) (m : Message)
    (hm : crud.get_message db mid = some m)
    (dbp : Store) (u : User) (text : String)
    (hfresh : ∀ m2 ∈ dbp.messages, m2.id ≠ dbp.next_message_id) :
    crud.get_message (crud.vote_for_message db m Vote.up) mid
      = some { m with vote_count := m.vote_count + 1 }
  ∧ crud.get_message (crud.vote_for_message db m Vote.down) mid
      = some { m with vote_count := m.vote_count - 1 }
  ∧ crud.vote_for_message (crud.vote_for_message db m Vote.up)
      { m with vote_count := m.vote_count + 1 } Vote.down = db
  ∧ crud.get_message (crud.post_message dbp text u) dbp.next_message_id
      = some { id := dbp.next_message_id, author_id := u.id,
               message := text, vote_count := 0 } := by
  refine ⟨get_message_vote_up db mid m hm, get_message_vote_down db mid m hm,
          vote_up_down db m, ?_⟩
  unfold crud.get_message crud.post_message
  exact find?_append_fresh dbp.messages _ dbp.next_message_id hfresh rfl

/-- C6 witness: post → 0, up → 1, down → 0 on a one-message store. -/
theorem vote_count_roundtrip_witness :
    crud.vote_for_message
        (crud.vote_for_message
          { users := [], messages := [{ id := 1, author_id := 1, message := "hi", vote_count := 0 }],
            next_user_id := 1, next_message_id := 2 }
          { id := 1, author_id := 1, message := "hi", vote_count := 0 } Vote.up)
        { id := 1, author_id := 1, message := "hi", vote_count := 0 + 1 } Vote.down
      = { users := [], messages := [{ id := 1, author_id := 1, message := "hi", vote_count := 0 }],
          next_user_id := 1, next_message_id := 2 } :=
  (vote_count_roundtrip
      { users := [], messages := [{ id := 1, author_id := 1, message := "hi", vote_count := 0 }],
        next_user_id := 1, next_message_id := 2 }
      1 { id := 1, author_id := 1, message := "hi", vote_count := 0 } rfl
      { users := [], messages := [{ id := 1, author_id := 1, message := "hi", vote_count := 0 }],
        next_user_id := 1, next_message_id := 2 }
      { id := 1, username := "alice", hashed_password := "pw", logged_in := true }
      "hello" (by decide)).2.2.1

/-- C7: with a validated session, deleting a nonexistent message id fails
with `NotFound` (400) and leaves the store unchanged; deleting an existing id
removes it, so a subsequent `get_message` on that id yields `None`. -/
theorem delete_message_not_found_or_removes (t : Token) (now : Int) (db : Store)
    (mid : Nat) (u : User)
    (hauth : main.validate_token t now db = (Except.ok u, db)) :
    (crud.get_message db mid = none →
        main.delete_message t now mid db = (main.DeleteResult.notFound, db)
      ∧ main.DeleteResult.notFound.status = 400)
  ∧ (∀ m : Message, crud.get_message db mid = some m →
        main.delete_message t now mid db
          = (main.DeleteResult.deleted, crud.delete_message db mid)
      ∧ crud.get_message (crud.delete_message db mid) mid = none) := by
  constructor
  · intro hnone
    refine ⟨?_, rfl⟩
    simp [main.delete_message, hauth, hnone]
  · intro m hm
    refine ⟨?_, get_message_delete db mid⟩
    simp [main.delete_message, hauth, hm]

/-- C7 witness: deleting message 1 in a store that holds it. -/
theorem delete_message_not_found_or_removes_witness :
    main.delete_message { sigValid := true, sub := some "alice", exp := some 100 } 50 1
        { users := [{ id := 1, username := "alice", hashed_password := "pw", logged_in := true }],
          messages := [{ id := 1, author_id := 1, message := "hi", vote_count := 0 }],
          next_user_id := 2, next_message_id := 2 }
      = (main.DeleteResult.deleted,
         crud.delete_message
           { users := [{ id := 1, username := "alice", hashed_password := "pw", logged_in := true }],
             messages := [{ id := 1, author_id := 1, message := "hi", vote_count := 0 }],
             next_user_id := 2, next_message_id := 2 } 1) :=
  ((delete_message_not_found_or_removes
      { sigValid := true, sub := some "alice", exp := some 100 } 50
      { users := [{ id := 1, username := "alice", hashed_password := "pw", logged_in := true }],
        messages := [{ id := 1, author_id := 1, message := "hi", vote_count := 0 }],
        next_user_id := 2, next_message_id := 2 }
      1 { id := 1, username := "alice", hashed_password := "pw", logged_in := true }
      rfl).2
    { id := 1, author_id := 1, message := "hi", vote_count := 0 } rfl).1

/-- C8: `get_user_messages db u` returns exactly the stored messages whose
author reference equals `u`'s key — sound and complete for any store state,
hence for any interleaving of posts by multiple users. -/
theorem user_messages_exact (db : Store) (u : User) (m : Message) :
    m ∈ crud.get_user_messages db u ↔ m ∈ db.messages ∧ m.author_id = u.id := by
  simp [crud.get_user_messages, List.mem_filter]

/-- C9: whenever `validate_token` succeeds and returns a `User`, it performs
no writes: every user record and every message record is unchanged. -/
theorem validate_token_success_frame (t : Token) (now : Int) (db db2 : Store)
    (u : User)
    (h : main.validate_token t now db = (Except.ok u, db2)) :
    db2.users = db.users ∧ db2.messages = db.messages := by
  have hdb := validate_token_ok_store t now db db2 u h
  exact ⟨by rw [hdb], by rw [hdb]⟩

/-- C9 witness: a successful validation for logged-in "alice" writes nothing. -/
theorem validate_token_success_frame_witness :
    ({ users := [{ id := 1, username := "alice", hashed_password := "pw", logged_in := true }],
       messages := [{ id := 1, author_id := 1, message := "hi", vote_count := 0 }],
       next_user_id := 2, next_message_id := 2 } : Store).users
      = ({ users := [{ id := 1, username := "alice", hashed_password := "pw", logged_in := true }],
           messages := [{ id := 1, author_id := 1, message := "hi", vote_count := 0 }],
           next_user_id := 2, next_message_id := 2 } : Store).users
  ∧ ({ users := [{ id := 1, username := "alice", hashed_password := "pw", logged_in := true }],
       messages := [{ id := 1, author_id := 1, message := "hi", vote_count := 0 }],
       next_user_id := 2, next_message_id := 2 } : Store).messages
      = ({ users := [{ id := 1, username := "alice", hashed_password := "pw", logged_in := true }],
           messages := [{ id := 1, author_id := 1, message := "hi", vote_count := 0 }],
           next_user_id := 2, next_message_id := 2 } : Store).messages :=
  validate_token_success_frame
    { sigValid := true, sub := some "alice", exp := some 100 } 50
    { users := [{ id := 1, username := "alice", hashed_password := "pw", logged_in := true }],
      messages := [{ id := 1, author_id := 1, message := "hi", vote_count := 0 }],
      next_user_id := 2, next_message_id := 2 }
    { users := [{ id := 1, username := "alice", hashed_password := "pw", logged_in := true }],
      messages := [{ id := 1, author_id := 1, message := "hi", vote_count := 0 }],
      next_user_id := 2, next_message_id := 2 }
    { id := 1, username := "alice", hashed_password := "pw", logged_in := true }
    rfl

/-- C10: for an authenticated user with no stored messages, the
`GET /user/messages` endpoint returns the empty list; and since
`get_user_messages` is a list-valued query (never `None`), the endpoint's
"User has no messages" branch is unreachable for every input. -/
theorem user_messages_empty_never_none (t : Token) (now : Int) (db : Store)
    (u : User)
    (hauth : main.validate_token t now db = (Except.ok u, db))
    (hnone : ∀ m ∈ db.messages, m.author_id ≠ u.id) :
    main.user_messages t now db = (main.UserMessagesResult.ok [], db)
  ∧ ∀ (t2 : Token) (now2 : Int) (db2 : Store),
      (main.user_messages t2 now2 db2).1 ≠ main.UserMessagesResult.noMessages := by
  constructor
  · have hempty : crud.get_user_messages db u = [] := by
      unfold crud.get_user_messages
      rw [List.filter_eq_nil_iff]
      intro a ha
      simpa using hnone a ha
    simp [main.user_messages, hauth, hempty]
  · intro t2 now2 db2
    unfold main.user_messages
    rcases hv : main.validate_token t2 now2 db2 with ⟨r, db3⟩
    cases r with
    | error e => exact fun hcontra => main.UserMessagesResult.noConfusion hcontra
    | ok du => exact fun hcontra => main.UserMessagesResult.noConfusion hcontra

/-- C10 witness: logged-in "alice" with an empty message table gets `[]`. -/
theorem user_messages_empty_never_none_witness :
    main.user_messages { sigValid := true, sub := some "alice", exp := some 100 } 50
        { users := [{ id := 1, username := "alice", hashed_password := "pw", logged_in := true }],
          messages := [], next_user_id := 2, next_message_id := 1 }
      = (main.UserMessagesResult.ok [],
         { users := [{ id := 1, username := "alice", hashed_password := "pw", logged_in := true }],
           messages := [], next_user_id := 2, next_message_id := 1 }) :=
  (user_messages_empty_never_none
      { sigValid := true, sub := some "alice", exp := some 100 } 50
      { users := [{ id := 1, username := "alice", hashed_password := "pw", logged_in := true }],
        messages := [], next_user_id := 2, next_message_id := 1 }
      { id := 1, username := "alice", hashed_password := "pw", logged_in := true }
      rfl (by simp)).1
